import Mathlib

/-!
Verification of the structured-extraction pipeline of the loan-document
onboarding service (schema registry, knowledge-base retriever, prompt
builder, generative invoker, response parser/validator, and the
field-level-citation variant).

The Python sources are shallowly embedded as executable Lean definitions:

* strings are embedded as `List Char`, with Python `str.strip` modelled by
  `pyStrip` over the exact Python whitespace set;
* JSON values are the inductive type `Json`; `json.loads` is the fueled
  parser `json_loads`; `jsonschema.validate` is `validateJson`, covering
  exactly the keywords the registered schemas use (`type`, `properties`,
  `required`, `items`; `description` and `examples` are non-validating
  annotations);
* the external collaborators (Bedrock knowledge-base index and the
  generation model) are parameters of the pipeline functions, so theorems
  quantify over every behaviour of those services;
* the mutable generator parameters (`temperature`,
  `max_tokens_to_sample`) are threaded through explicitly as a
  `GenParams` state, and the retrieval calls issued by the orchestrator
  are recorded in an explicit event list.

Note on `field_level_extractor_service.py`: that file is truncated in the
middle of a string literal (the module cannot even be imported), so the
complete variant `field_level_extractor_complete.py` is the authoritative
source for `FieldLevelExtractorService`.

Note on `schemas.py`: `LOAN_BOOKING_SHEET_SCHEMA` is assigned twice; the
second assignment shadows the first, so the effective schema is the
second one (55 properties, 5 required fields).  The embedded schemas keep
every validation-relevant key (`type`, `properties`, `required`, `items`)
verbatim; the `description` and `examples` strings, which
`jsonschema.validate` ignores, are elided.
-/

set_option maxRecDepth 20000

/-! ## Python string primitives -/

/-- The Python `str.strip()` whitespace set. -/
def isPySpace (c : Char) : Bool :=
  c = ' ' || c = '\t' || c = '\n' || c = '\r' || c = '\x0b' || c = '\x0c'

/-- Python `s.strip()` on a character list: drop whitespace from both ends. -/
def pyStrip (l : List Char) : List Char :=
  (l.dropWhile isPySpace).rdropWhile isPySpace

/-- Python `sep.join(parts)`. -/
def pyJoin (sep : List Char) : List (List Char) → List Char
  | [] => []
  | [t] => t
  | t :: ts => t ++ sep ++ pyJoin sep ts

/-- Python `s.split(sep)` for the single-character separator used by the
citation resolver (`chunk_ref.split("_")`): splits at every underscore,
keeping empty segments. -/
def splitOnUnderscore : List Char → List (List Char)
  | [] => [[]]
  | c :: rest =>
    if c = '_' then [] :: splitOnUnderscore rest
    else
      match splitOnUnderscore rest with
      | [] => [[c]]
      | g :: gs => (c :: g) :: gs

/-- Parse a run of decimal digits possibly containing single underscores
between digits, as Python `int()` accepts after sign handling; returns
`none` exactly when Python `int()` would raise `ValueError`. -/
def pyIntDigits : List Char → Bool → ℕ → Option ℕ
  | [], true, acc => some acc
  | [], false, _ => none
  | c :: rest, prev, acc =>
    if c.isDigit then pyIntDigits rest true (acc * 10 + (c.toNat - 48))
    else if c = '_' then
      if prev then pyIntDigits rest false acc else none
    else none

/-- Python `int(s)`: strip whitespace, optional sign, then digits
(underscore separators between digits allowed); `none` models
`ValueError`. -/
def pyInt (s : List Char) : Option ℤ :=
  match pyStrip s with
  | '+' :: rest => (pyIntDigits rest false 0).map (fun n => (n : ℤ))
  | '-' :: rest => (pyIntDigits rest false 0).map (fun n => -(n : ℤ))
  | rest => (pyIntDigits rest false 0).map (fun n => (n : ℤ))

/-! ## JSON values -/

/-- JSON values as produced by `json.loads`.  Numbers are embedded as
rationals (every JSON numeral denotes a rational); object fields keep
insertion order with later duplicate keys replacing earlier ones, as a
Python `dict` does. -/
inductive Json where
  | null : Json
  | bool (b : Bool) : Json
  | num (q : ℚ) : Json
  | str (s : String) : Json
  | arr (elems : List Json) : Json
  | obj (fields : List (String × Json)) : Json

/-- Lookup of a key in an object field list (`dict` access). -/
def lookupKey (fields : List (String × Json)) (k : String) : Option Json :=
  match fields with
  | [] => none
  | (k', v) :: rest => if k' = k then some v else lookupKey rest k

/-- Insertion into an object field list with `dict` semantics: an existing
key is overwritten in place, a new key is appended. -/
def insertKey (fields : List (String × Json)) (k : String) (v : Json) :
    List (String × Json) :=
  match fields with
  | [] => [(k, v)]
  | (k', v') :: rest =>
    if k' = k then (k', v) :: rest else (k', v') :: insertKey rest k v

/-- Whether a JSON object value has the given key (`k in d` on a dict). -/
def objHasKey (v : Json) (k : String) : Bool :=
  match v with
  | .obj fields => (lookupKey fields k).isSome
  | _ => false

/-- Python truthiness of a JSON value (`if schema:`): empty dict, empty
list, empty string, zero and `None`/`False` are falsy. -/
def jsonTruthy : Json → Bool
  | .null => false
  | .bool b => b
  | .num q => q != 0
  | .str s => s != ""
  | .arr l => !l.isEmpty
  | .obj fields => !fields.isEmpty

/-! ## `json.loads` -/

/-- JSON grammar whitespace (RFC 8259: space, tab, newline, carriage
return), as skipped by Python `json.loads`. -/
def isJsonWs (c : Char) : Bool :=
  c = ' ' || c = '\t' || c = '\n' || c = '\r'

/-- Skip JSON whitespace. -/
def skipWs (l : List Char) : List Char := l.dropWhile isJsonWs

/-- Hex digit value, for `\uXXXX` escapes. -/
def hexVal (c : Char) : Option ℕ :=
  if c.isDigit then some (c.toNat - 48)
  else if 'a' ≤ c ∧ c ≤ 'f' then some (c.toNat - 87)
  else if 'A' ≤ c ∧ c ≤ 'F' then some (c.toNat - 55)
  else none

/-- Decode a single-character JSON escape (everything except `\u`). -/
def escChar (e : Char) : Option Char :=
  if e = '"' then some '"'
  else if e = '\\' then some '\\'
  else if e = '/' then some '/'
  else if e = 'b' then some '\x08'
  else if e = 'f' then some '\x0c'
  else if e = 'n' then some '\n'
  else if e = 'r' then some '\r'
  else if e = 't' then some '\t'
  else none

/-- Parse the remainder of a JSON string literal (after the opening
quote), handling escape sequences; returns the decoded characters and the
rest of the input. -/
def parseStringRest : List Char → Option (List Char × List Char)
  | [] => none
  | c :: rest =>
    if c = '"' then some ([], rest)
    else if c = '\\' then
      match rest with
      | [] => none
      | e :: rest2 =>
        if e = 'u' then
          match rest2 with
          | h1 :: h2 :: h3 :: h4 :: rest3 =>
            match hexVal h1, hexVal h2, hexVal h3, hexVal h4 with
            | some a, some b, some c', some d =>
              let code := ((a * 16 + b) * 16 + c') * 16 + d
              if code < 0xd800 ∨ 0xdfff < code then
                match parseStringRest rest3 with
                | none => none
                | some (s, r) => some (Char.ofNat code :: s, r)
              else none
            | _, _, _, _ => none
          | _ => none
        else
          match escChar e with
          | none => none
          | some ch =>
            match parseStringRest rest2 with
            | none => none
            | some (s, r) => some (ch :: s, r)
    else if c.toNat < 32 then none
    else
      match parseStringRest rest with
      | none => none
      | some (s, r) => some (c :: s, r)

/-- Numeric value of a digit run. -/
def digitsToNat (l : List Char) : ℕ :=
  l.foldl (fun acc c => acc * 10 + (c.toNat - 48)) 0

/-- Parse a JSON numeral (sign, integer part, optional fraction, optional
exponent) into a rational, strictly following the RFC 8259 grammar that
`json.loads` enforces (no leading zeros, no bare `.`). -/
def parseNumber (l : List Char) : Option (ℚ × List Char) :=
  let (neg, l1) :=
    match l with
    | '-' :: rest => (true, rest)
    | _ => (false, l)
  let (intDigits, l2) := l1.span Char.isDigit
  if intDigits = [] then none
  else if intDigits.head? = some '0' ∧ intDigits.length ≠ 1 then none
  else
    let (fracDigits, l3) :=
      match l2 with
      | '.' :: rest => rest.span Char.isDigit
      | _ => ([], l2)
    if l2.head? = some '.' ∧ fracDigits = [] then none
    else
      let l3' := if l2.head? = some '.' then l3 else l2
      let (expVal, l4) :=
        match l3' with
        | e :: rest =>
          if e = 'e' ∨ e = 'E' then
            match rest with
            | '+' :: rest2 =>
              let (ed, r) := rest2.span Char.isDigit
              if ed = [] then (none, l3') else (some ((digitsToNat ed : ℤ)), r)
            | '-' :: rest2 =>
              let (ed, r) := rest2.span Char.isDigit
              if ed = [] then (none, l3') else (some (-(digitsToNat ed : ℤ)), r)
            | _ =>
              let (ed, r) := rest.span Char.isDigit
              if ed = [] then (none, l3') else (some ((digitsToNat ed : ℤ)), r)
          else (none, l3')
        | [] => (none, l3')
      let mantissa : ℚ :=
        (digitsToNat intDigits : ℚ) +
          (digitsToNat fracDigits : ℚ) / ((10 : ℚ) ^ fracDigits.length)
      let signed : ℚ := if neg then -mantissa else mantissa
      let value : ℚ :=
        match expVal with
        | some e => signed * (10 : ℚ) ^ e
        | none => signed
      some (value, l4)

mutual

/-- Parse one JSON value; the fuel bounds nesting and element count. -/
def parseValue (fuel : ℕ) (l : List Char) : Option (Json × List Char) :=
  match fuel with
  | 0 => none
  | fuel' + 1 =>
    match skipWs l with
    | 'n' :: 'u' :: 'l' :: 'l' :: rest => some (.null, rest)
    | 't' :: 'r' :: 'u' :: 'e' :: rest => some (.bool true, rest)
    | 'f' :: 'a' :: 'l' :: 's' :: 'e' :: rest => some (.bool false, rest)
    | '"' :: rest =>
      match parseStringRest rest with
      | none => none
      | some (s, r) => some (.str ⟨s⟩, r)
    | '[' :: rest =>
      match skipWs rest with
      | ']' :: r2 => some (.arr [], r2)
      | _ => parseArrayElems fuel' rest []
    | '{' :: rest =>
      match skipWs rest with
      | '}' :: r2 => some (.obj [], r2)
      | _ => parseObjElems fuel' rest []
    | c :: rest =>
      if c = '-' ∨ c.isDigit then
        (parseNumber (c :: rest)).map (fun (q, r) => (Json.num q, r))
      else none
    | [] => none

/-- Parse the elements of a (non-empty) JSON array. -/
def parseArrayElems (fuel : ℕ) (l : List Char) (acc : List Json) :
    Option (Json × List Char) :=
  match fuel with
  | 0 => none
  | fuel' + 1 =>
    match parseValue fuel' l with
    | none => none
    | some (v, r) =>
      match skipWs r with
      | ',' :: r2 => parseArrayElems fuel' r2 (acc ++ [v])
      | ']' :: r2 => some (.arr (acc ++ [v]), r2)
      | _ => none

/-- Parse the members of a (non-empty) JSON object. -/
def parseObjElems (fuel : ℕ) (l : List Char) (acc : List (String × Json)) :
    Option (Json × List Char) :=
  match fuel with
  | 0 => none
  | fuel' + 1 =>
    match skipWs l with
    | '"' :: rest =>
      match parseStringRest rest with
      | none => none
      | some (k, r) =>
        match skipWs r with
        | ':' :: r2 =>
          match parseValue fuel' r2 with
          | none => none
          | some (v, r3) =>
            match skipWs r3 with
            | ',' :: r4 => parseObjElems fuel' r4 (insertKey acc ⟨k⟩ v)
            | '}' :: r4 => some (.obj (insertKey acc ⟨k⟩ v), r4)
            | _ => none
        | _ => none
    | _ => none

end

/-- Python `json.loads`: parse a complete JSON document; `none` models
`json.JSONDecodeError` (including trailing garbage). -/
def json_loads (l : List Char) : Option Json :=
  match parseValue (2 * l.length + 4) l with
  | none => none
  | some (v, rest) => if skipWs rest = [] then some v else none

/-! ## `jsonschema.validate`

The registered schemas use exactly the keywords `type`, `properties`,
`required`, `items` (plus the non-validating annotations `description`
and `examples`); `validateJson` embeds the `jsonschema` semantics of
those keywords: `type` checks the primitive type (a list means any of),
`required` demands key presence on object instances, `properties`
validates present keys only, `items` validates every array element.
Missing keywords validate trivially; keywords never constrain instances
of another primitive type. -/

/-- One `jsonschema` primitive type name against an instance.  `number`
accepts any numeral, `integer` exactly the integral ones (as the library
does for e.g. `1.0`); booleans are never numbers. -/
def typeMatches (t : String) (v : Json) : Bool :=
  if t = "object" then (match v with | .obj _ => true | _ => false)
  else if t = "array" then (match v with | .arr _ => true | _ => false)
  else if t = "string" then (match v with | .str _ => true | _ => false)
  else if t = "null" then (match v with | .null => true | _ => false)
  else if t = "boolean" then (match v with | .bool _ => true | _ => false)
  else if t = "number" then (match v with | .num _ => true | _ => false)
  else if t = "integer" then (match v with | .num q => q.den = 1 | _ => false)
  else false

/-- The `type` keyword: absent means unconstrained; a string is one
primitive type; a list means the instance may match any member. -/
def typeOk (schemaFields : List (String × Json)) (v : Json) : Bool :=
  match lookupKey schemaFields "type" with
  | none => true
  | some (.str t) => typeMatches t v
  | some (.arr ts) =>
    ts.any (fun tj => match tj with | .str t => typeMatches t v | _ => false)
  | some _ => false

/-- The `required` keyword: on object instances every listed name must be
a key; on non-object instances it is vacuous. -/
def requiredOk (schemaFields : List (String × Json)) (v : Json) : Bool :=
  match lookupKey schemaFields "required" with
  | some (.arr names) =>
    match v with
    | .obj _ =>
      names.all (fun nj => match nj with | .str n => objHasKey v n | _ => true)
    | _ => true
  | _ => true

/-- Fueled `jsonschema.validate(instance, schema)` as a boolean: `true`
means no validation error.  The fuel dominates the schema nesting depth
(the registered schemas nest fewer than 6 levels; the pipeline passes 10). -/
def validateJson : ℕ → Json → Json → Bool
  | 0, _, _ => false
  | fuel + 1, schema, v =>
    match schema with
    | .obj schemaFields =>
      typeOk schemaFields v && requiredOk schemaFields v &&
      (match lookupKey schemaFields "properties" with
       | some (.obj props) =>
         match v with
         | .obj vfields =>
           props.all (fun p =>
             match lookupKey vfields p.1 with
             | none => true
             | some x => validateJson fuel p.2 x)
         | _ => true
       | _ => true) &&
      (match lookupKey schemaFields "items" with
       | some sub =>
         match v with
         | .arr elems => elems.all (fun x => validateJson fuel sub x)
         | _ => true
       | none => true)
    | _ => true

/-! ## `StructuredExtractorService._parse_and_validate` -/

/-- The opening markdown fence the parser strips (`cleaned_output[7:]`). -/
def fenceJson : List Char := "```json".data

/-- The closing markdown fence the parser strips (`cleaned_output[:-3]`). -/
def fenceClose : List Char := "```".data

/-- Drop a leading ` ```json ` fence when present
(`cleaned_output[7:]`). -/
def dropOpenFence (s : List Char) : List Char :=
  if fenceJson.isPrefixOf s then s.drop 7 else s

/-- Drop a trailing ` ``` ` fence when present (`cleaned_output[:-3]`). -/
def dropCloseFence (s : List Char) : List Char :=
  if fenceClose.isSuffixOf s then s.rdrop 3 else s

/-- The cleaning phase of `_parse_and_validate`: strip whitespace, drop a
leading ` ```json ` fence and a trailing ` ``` ` fence when present, strip
again. -/
def cleanOutput (raw : List Char) : List Char :=
  pyStrip (dropCloseFence (dropOpenFence (pyStrip raw)))

/-- `StructuredExtractorService._parse_and_validate`, generalised over the
JSON parsing function so that theorems can show outcomes that are
independent of the parser (that is, decided before any parse attempt).
`jsonschemaAvailable` embeds the module-level `JSONSCHEMA_AVAILABLE`
flag; `none` models every `return None` path (empty output, structural
pre-check failure, `JSONDecodeError`, `ValidationError`). -/
def parse_and_validate_gen (loads : List Char → Option Json)
    (jsonschemaAvailable : Bool) (raw_output : List Char)
    (schema : Option Json) : Option Json :=
  if raw_output = [] then none
  else
    let cleaned := cleanOutput raw_output
    if cleaned.head? = some '{' ∧ cleaned.getLast? = some '}' then
      match loads cleaned with
      | none => none
      | some structured_data =>
        match schema with
        | some s =>
          if jsonschemaAvailable && jsonTruthy s then
            if validateJson 10 s structured_data then some structured_data
            else none
          else some structured_data
        | none => some structured_data
    else none

/-- `_parse_and_validate` as deployed: `json.loads` as the parser and the
`jsonschema` library installed. -/
def parse_and_validate (raw_output : List Char) (schema : Option Json) :
    Option Json :=
  parse_and_validate_gen json_loads true raw_output schema

/-- `schemas.CREDIT_AGREEMENT_SCHEMA` (validation-relevant keys verbatim;
the non-validating `description`/`examples` annotations elided). -/
def CREDIT_AGREEMENT_SCHEMA : Json :=
  .obj [("type", .str "object"),
   ("properties", .obj [("agreement_execution_date", .obj [("type", .arr [.str "string", .str "null"])]),
     ("borrower_names", .obj [("type", .str "array"),
       ("items", .obj [("type", .arr [.str "string", .str "null"])])]),
     ("lender_parties", .obj [("type", .str "array"),
       ("items", .obj [("type", .str "object"),
         ("properties", .obj [("role", .obj [("type", .arr [.str "string", .str "null"])]),
           ("name", .obj [("type", .arr [.str "string", .str "null"])])]),
         ("required", .arr [.str "role", .str "name"])])]),
     ("total_commitment", .obj [("type", .arr [.str "string", .str "number", .str "null"])]),
     ("facility_details", .obj [("type", .str "array"),
       ("items", .obj [("type", .str "object"),
         ("properties", .obj [("facility_type", .obj [("type", .arr [.str "string", .str "null"])]),
           ("commitment_amount", .obj [("type", .arr [.str "string", .str "number", .str "null"])]),
           ("maturity_date", .obj [("type", .arr [.str "string", .str "null"])])]),
         ("required", .arr [.str "facility_type"])])]),
     ("interest_rate_details", .obj [("type", .str "object"),
       ("properties", .obj [("base_rate_options", .obj [("type", .str "array"),
           ("items", .obj [("type", .str "string")])]),
         ("applicable_margins", .obj [("type", .arr [.str "string", .str "null"])]),
         ("rate_floor", .obj [("type", .arr [.str "string", .str "number", .str "null"])]),
         ("default_rate", .obj [("type", .arr [.str "string", .str "null"])])])]),
     ("key_fees", .obj [("type", .str "array"),
       ("items", .obj [("type", .str "object"),
         ("properties", .obj [("fee_type", .obj [("type", .arr [.str "string", .str "null"])]),
           ("fee_rate_or_amount", .obj [("type", .arr [.str "string", .str "null"])]),
           ("payment_frequency", .obj [("type", .arr [.str "string", .str "null"])])]),
         ("required", .arr [.str "fee_type", .str "fee_rate_or_amount"])])]),
     ("maturity_date_final", .obj [("type", .arr [.str "string", .str "null"])]),
     ("governing_law", .obj [("type", .arr [.str "string", .str "null"])]),
     ("definition_business_day", .obj [("type", .arr [.str "string", .str "null"])])]),
   ("required", .arr [.str "agreement_execution_date", .str "borrower_names", .str "lender_parties", .str "total_commitment", .str "maturity_date_final", .str "governing_law"])]

/-- `schemas.LOAN_BOOKING_SHEET_SCHEMA`: the second, effective assignment
in `schemas.py` (the first is shadowed); validation-relevant keys
verbatim, annotations elided. -/
def LOAN_BOOKING_SHEET_SCHEMA : Json :=
  .obj [("type", .str "object"),
   ("properties", .obj [("maturity_date", .obj [("type", .arr [.str "string", .str "null"])]),
     ("total_loan_facility_amount", .obj [("type", .arr [.str "string", .str "number", .str "null"])]),
     ("withheld_amount", .obj [("type", .arr [.str "string", .str "number", .str "null"])]),
     ("used_amount", .obj [("type", .arr [.str "string", .str "number", .str "null"])]),
     ("remaining_available_amount", .obj [("type", .arr [.str "string", .str "number", .str "null"])]),
     ("global_syndicated_amount", .obj [("type", .arr [.str "string", .str "number", .str "null"])]),
     ("maximum_takedown_amount", .obj [("type", .arr [.str "string", .str "number", .str "null"])]),
     ("prepayment_penalty", .obj [("type", .arr [.str "boolean", .str "null"])]),
     ("associated_fees", .obj [("type", .str "array"),
       ("items", .obj [("type", .str "object"),
         ("properties", .obj [("fee_type", .obj [("type", .arr [.str "string", .str "null"])]),
           ("fee_amount", .obj [("type", .arr [.str "string", .str "number", .str "null"])])])])]),
     ("base_balance_type", .obj [("type", .arr [.str "string", .str "null"])]),
     ("effective_date", .obj [("type", .arr [.str "string", .str "null"])]),
     ("expiration_date", .obj [("type", .arr [.str "string", .str "null"])]),
     ("expiration_schedule", .obj [("type", .arr [.str "string", .str "null"])]),
     ("fee_accrual_start_date", .obj [("type", .arr [.str "string", .str "null"])]),
     ("fee_calculation_method", .obj [("type", .arr [.str "string", .str "null"])]),
     ("accrual_rate", .obj [("type", .arr [.str "string", .str "number", .str "null"])]),
     ("accrual_basis", .obj [("type", .arr [.str "string", .str "null"])]),
     ("percentage_applied", .obj [("type", .arr [.str "string", .str "null"])]),
     ("low_high_indicator", .obj [("type", .arr [.str "string", .str "null"])]),
     ("pse_low_balance_threshold", .obj [("type", .arr [.str "string", .str "number", .str "null"])]),
     ("pse_high_balance_threshold", .obj [("type", .arr [.str "string", .str "number", .str "null"])]),
     ("facility_low_balance_threshold", .obj [("type", .arr [.str "string", .str "number", .str "null"])]),
     ("facility_high_balance_threshold", .obj [("type", .arr [.str "string", .str "number", .str "null"])]),
     ("next_due_date", .obj [("type", .arr [.str "string", .str "null"])]),
     ("business_day_adjustment_rule", .obj [("type", .arr [.str "string", .str "null"])]),
     ("due_date_end_of_month", .obj [("type", .arr [.str "boolean", .str "null"])]),
     ("calendar_used", .obj [("type", .arr [.str "string", .str "null"])]),
     ("pse_lead_days", .obj [("type", .arr [.str "integer", .str "null"])]),
     ("pse_billing_frequency", .obj [("type", .arr [.str "string", .str "null"])]),
     ("pse_collection_instructions", .obj [("type", .arr [.str "string", .str "null"])]),
     ("pse_bill_format", .obj [("type", .arr [.str "string", .str "null"])]),
     ("pse_mailing_instructions", .obj [("type", .arr [.str "string", .str "null"])]),
     ("billing_lead_days", .obj [("type", .arr [.str "integer", .str "null"])]),
     ("billing_frequency", .obj [("type", .arr [.str "string", .str "null"])]),
     ("bill_handling", .obj [("type", .arr [.str "string", .str "null"])]),
     ("bill_format", .obj [("type", .arr [.str "string", .str "null"])]),
     ("mailing_instructions", .obj [("type", .arr [.str "string", .str "null"])]),
     ("billing_address", .obj [("type", .arr [.str "string", .str "null"])]),
     ("borrower_names", .obj [("type", .str "array"),
       ("items", .obj [("type", .arr [.str "string", .str "null"])])]),
     ("investor", .obj [("type", .arr [.str "string", .str "null"])]),
     ("lender_type", .obj [("type", .arr [.str "string", .str "null"])]),
     ("sub_lender_type", .obj [("type", .arr [.str "string", .str "null"])]),
     ("agent", .obj [("type", .arr [.str "string", .str "null"])]),
     ("syndicate_agent", .obj [("type", .arr [.str "string", .str "null"])]),
     ("participation", .obj [("type", .str "array"),
       ("items", .obj [("type", .str "object"),
         ("properties", .obj [("participant_name", .obj [("type", .arr [.str "string", .str "null"])]),
           ("participation_amount", .obj [("type", .arr [.str "string", .str "number", .str "null"])])])])]),
     ("collateral_details", .obj [("type", .str "array"),
       ("items", .obj [("type", .str "object"),
         ("properties", .obj [("collateral_type", .obj [("type", .arr [.str "string", .str "null"])]),
           ("collateral_value", .obj [("type", .arr [.str "string", .str "number", .str "null"])]),
           ("security_agreement", .obj [("type", .arr [.str "string", .str "null"])])])])]),
     ("financial_covenants", .obj [("type", .str "array"),
       ("items", .obj [("type", .str "object"),
         ("properties", .obj [("covenant_type", .obj [("type", .arr [.str "string", .str "null"])]),
           ("covenant_value", .obj [("type", .arr [.str "string", .str "null"])]),
           ("testing_frequency", .obj [("type", .arr [.str "string", .str "null"])])])])]),
     ("negative_covenants", .obj [("type", .str "array"),
       ("items", .obj [("type", .str "object"),
         ("properties", .obj [("covenant_description", .obj [("type", .arr [.str "string", .str "null"])]),
           ("applicable_to", .obj [("type", .arr [.str "string", .str "null"])])])])]),
     ("reporting_requirements", .obj [("type", .str "array"),
       ("items", .obj [("type", .str "object"),
         ("properties", .obj [("report_type", .obj [("type", .arr [.str "string", .str "null"])]),
           ("reporting_frequency", .obj [("type", .arr [.str "string", .str "null"])]),
           ("recipient", .obj [("type", .arr [.str "string", .str "null"])])])])]),
     ("events_of_default", .obj [("type", .str "array"),
       ("items", .obj [("type", .str "object"),
         ("properties", .obj [("event_description", .obj [("type", .arr [.str "string", .str "null"])]),
           ("remedy", .obj [("type", .arr [.str "string", .str "null"])])])])]),
     ("amendment_provisions", .obj [("type", .str "array"),
       ("items", .obj [("type", .str "object"),
         ("properties", .obj [("amendment_type", .obj [("type", .arr [.str "string", .str "null"])]),
           ("amendment_description", .obj [("type", .arr [.str "string", .str "null"])]),
           ("effective_date", .obj [("type", .arr [.str "string", .str "null"])])])])]),
     ("assignment_provisions", .obj [("type", .str "array"),
       ("items", .obj [("type", .str "object"),
         ("properties", .obj [("assignee", .obj [("type", .arr [.str "string", .str "null"])]),
           ("assignment_conditions", .obj [("type", .arr [.str "string", .str "null"])])])])]),
     ("governing_law", .obj [("type", .arr [.str "string", .str "null"])]),
     ("definition_business_day", .obj [("type", .arr [.str "string", .str "null"])]),
     ("is_revolving_facility", .obj [("type", .arr [.str "boolean", .str "null"])])]),
   ("required", .arr [.str "maturity_date", .str "total_loan_facility_amount", .str "borrower_names", .str "lender_type", .str "governing_law"])]

/-- `schemas.get_schema`: exact-name lookup in the static
`DOCUMENT_SCHEMAS` mapping `\x7b"credit_agreement": ..., "loan_booking_sheet":
...\x7d`; `none` models the logged not-found return. -/
def get_schema (schema_name : String) : Option Json :=
  if schema_name = "credit_agreement" then some CREDIT_AGREEMENT_SCHEMA
  else if schema_name = "loan_booking_sheet" then some LOAN_BOOKING_SHEET_SCHEMA
  else none

/-! ## Context chunks -/

/-- A retrieved chunk, modelled by the only part of the retrieval-result
dict that the extraction pipeline reads: `chunk.get('content',
\x7b\x7d).get('text', '')`.  `none` models a missing `content`/`text` key (the
`get` default then yields the empty string). -/
structure ContextChunk where
  content_text : Option String
  deriving DecidableEq

/-- `chunk.get('content', \x7b\x7d).get('text', '')`. -/
def chunkText (c : ContextChunk) : List Char :=
  (c.content_text.getD "").data

/-! ## `json.dumps(..., indent=2)` -/

/-- Serialize one string character as `json.dumps` does with
`ensure_ascii=True`. -/
def dumpsChar (c : Char) : List Char :=
  if c = '"' then "\\\"".data
  else if c = '\\' then "\\\\".data
  else if c = '\n' then "\\n".data
  else if c = '\t' then "\\t".data
  else if c = '\r' then "\\r".data
  else if c.toNat < 32 ∨ 126 < c.toNat then
    let hex := Nat.toDigits 16 c.toNat
    "\\u".data ++ List.replicate (4 - hex.length) '0' ++ hex
  else [c]

/-- Serialize a JSON string literal. -/
def dumpsString (s : String) : List Char :=
  '"' :: (s.data.flatMap dumpsChar) ++ ['"']

/-- Decimal digits of an integer. -/
def intRepr (i : ℤ) : List Char :=
  (if i < 0 then ['-'] else []) ++ (Nat.repr i.natAbs).data

/-- `json.dumps(value, indent=2)`: the pretty-printed serialization the
prompt builder embeds (`schema_description`).  The registered schemas
contain only strings, objects and arrays, so the numeric case prints the
integer part only; the fuel dominates nesting depth. -/
def dumpsJson : ℕ → ℕ → Json → List Char
  | 0, _, _ => []
  | _ + 1, _, .null => "null".data
  | _ + 1, _, .bool b => if b then "true".data else "false".data
  | _ + 1, _, .num q => intRepr q.num ++ (if q.den = 1 then [] else ".".data)
  | _ + 1, _, .str s => dumpsString s
  | fuel + 1, level, .arr elems =>
    match elems with
    | [] => "[]".data
    | _ =>
      let pad := List.replicate (2 * (level + 1)) ' '
      '[' :: '\n' ::
        pyJoin (",\n".data)
          (elems.map (fun x => pad ++ dumpsJson fuel (level + 1) x)) ++
        '\n' :: List.replicate (2 * level) ' ' ++ [']']
  | fuel + 1, level, .obj fields =>
    match fields with
    | [] => "\x7b\x7d".data
    | _ =>
      let pad := List.replicate (2 * (level + 1)) ' '
      '\x7b' :: '\n' ::
        pyJoin (",\n".data)
          (fields.map (fun p =>
            pad ++ dumpsString p.1 ++ ": ".data ++ dumpsJson fuel (level + 1) p.2)) ++
        '\n' :: List.replicate (2 * level) ' ' ++ ['\x7d']

/-! ## `BedrockLLMGenerator._construct_prompt` -/

/-- The chunk separator of `_construct_prompt`. -/
def contextDelim : List Char := "\n\n---\n\n".data

/-- Text of the extraction prompt before the document context. -/
def promptPartA : List Char :=
  ("Human: You are an expert data extraction system. Your task is to analyze the provided text context, which comes from a single document identified by its ID, and extract information precisely according to the requested JSON schema.\n\n<document_context>\n").data

/-- Text of the extraction prompt between the context and the schema. -/
def promptPartB : List Char :=
  ("\n</document_context>\n\nStrictly adhere to the following instructions for your response:\n1.  Extract information *only* from the text provided in `<document_context>`. Do not infer, guess, or add information not explicitly present in the text.\n2.  Your *entire* response must be a single, valid JSON object.\n3.  The JSON object must conform *exactly* to the structure and data types defined in the `<json_schema>` below. Ensure all required fields specified in the schema are present in your JSON output.\n4.  If a specific piece of information required by the schema is not found in the context, use the JSON value `null` for that field\x27s value. Do *not* omit the field itself if it\x27s defined in the schema properties.\n5.  Pay close attention to data types specified in the schema (string, number, integer, boolean, array, object) and format the extracted values accordingly. For fields specified as `number` or `integer`, provide only the numeric value without currency symbols, commas, or units, if possible based on the text. For dates (type `string`), use YYYY-MM-DD format if the text allows, otherwise use the format present in the text.\n6.  Do not include *any* text, explanations, apologies, or introductory phrases before or after the JSON object. Your response must start *immediately* with `\x7b` and end *exactly* with `\x7d`. Do not wrap the JSON in markdown code fences (```json ... ```).\n\n<json_schema>\n").data

/-- Text of the extraction prompt after the schema. -/
def promptPartC : List Char :=
  ("\n</json_schema>\n\nBased *only* on the provided `<document_context>` and adhering strictly to all instructions above, generate the JSON object conforming to the `<json_schema>`.").data

/-- `BedrockLLMGenerator._construct_prompt`: fails (`none`) on an empty
chunk list and when the joined chunk texts strip to nothing; otherwise
embeds the stripped join of the non-empty chunk texts, in order,
separated by `contextDelim`, together with the serialized schema.  (The
schema-serialization `TypeError` branch of the source is unreachable
here: every `Json` value serializes.) -/
def construct_prompt (context_chunks : List ContextChunk)
    (desired_schema : Json) : Option (List Char) :=
  if context_chunks.isEmpty then none
  else
    let context_text :=
      pyStrip (pyJoin contextDelim
        ((context_chunks.map chunkText).filter (fun t => !t.isEmpty)))
    if context_text.isEmpty then none
    else
      some (promptPartA ++ context_text ++ promptPartB ++
        dumpsJson 10 0 desired_schema ++ promptPartC)

/-! ## `StructuredExtractorService.extract_from_document` -/

/-- The mutable sampling parameters of the shared
`BedrockLLMGenerator` instance (`self.temperature`,
`self.max_tokens_to_sample`).  `temperature = none` is the deliberate
tri-state "unset" (the model default applies). -/
structure GenParams where
  temperature : Option ℚ
  max_tokens_to_sample : ℕ
  deriving DecidableEq

/-- Outcome of the generation step as observed by the orchestrator:
either `generate_structured_data` returned (`produces`, with `none` for
its internal failure paths) or it raised and the `except` block caught
(`raises`). -/
inductive GenOutcome where
  | raises : GenOutcome
  | produces (out : Option (List Char)) : GenOutcome

/-- Externally visible calls issued by `extract_from_document`, in
program order; used to express that a stage was never reached. -/
inductive ExtractEvent where
  | retrieveCall (document_identifier metadata_key : String)
      (query_text : Option String) (num_results : ℕ) : ExtractEvent
  deriving DecidableEq

/-- The collaborators of `StructuredExtractorService`: the knowledge-base
retriever, the generation step, the `jsonschema` availability flag and
the configured `NUMBER_OF_RETRIEVAL_RESULTS`. -/
structure ExtractEnv where
  retrieve : String → String → Option String → ℕ → Option (List ContextChunk)
  genStep : GenParams → List ContextChunk → Json → GenOutcome
  jsonschemaAvailable : Bool
  numResults : ℕ

/-- The success payload returned by `extract_from_document`. -/
structure ExtractionResult where
  document_identifier : String
  schema_used : String
  extracted_data : Json
  extraction_status : String

/-- `StructuredExtractorService.extract_from_document`: schema lookup,
retrieval (scoped by the `loanBookingId` metadata key), temporary
override of the generator parameters, generation, restore in `finally`,
parse/validate, and the success dict.  Returns the result, the final
generator parameters, and the list of retrieval calls issued. -/
def extract_from_document (env : ExtractEnv) (g0 : GenParams)
    (document_identifier schema_name : String)
    (retrieval_query : Option String) (temperature : Option ℚ)
    (max_tokens : Option ℕ) :
    Option ExtractionResult × GenParams × List ExtractEvent :=
  match get_schema schema_name with
  | none => (none, g0, [])
  | some target_schema =>
    let ev := ExtractEvent.retrieveCall document_identifier "loanBookingId"
      retrieval_query env.numResults
    match env.retrieve document_identifier "loanBookingId" retrieval_query
        env.numResults with
    | none => (none, g0, [ev])
    | some context_chunks =>
      if context_chunks.isEmpty then (none, g0, [ev])
      else
        let g1 : GenParams :=
          { temperature :=
              match temperature with
              | some t => some t
              | none => g0.temperature,
            max_tokens_to_sample :=
              match max_tokens with
              | some m => m
              | none => g0.max_tokens_to_sample }
        let raw_llm_output : Option (List Char) :=
          match env.genStep g1 context_chunks target_schema with
          | .raises => none
          | .produces o => o
        let g2 : GenParams :=
          { temperature := g0.temperature,
            max_tokens_to_sample := g0.max_tokens_to_sample }
        match raw_llm_output with
        | none => (none, g2, [ev])
        | some raw =>
          match parse_and_validate_gen json_loads env.jsonschemaAvailable
              raw (some target_schema) with
          | none => (none, g2, [ev])
          | some structured_data =>
            (some { document_identifier := document_identifier,
                    schema_used := schema_name,
                    extracted_data := structured_data,
                    extraction_status := "success" }, g2, [ev])

/-! ## `BedrockKnowledgeBaseRetriever.retrieve_document_chunks` -/

/-- One `client.retrieve` call against the Bedrock knowledge-base index:
either it raises (`error`: `ClientError` or any other exception) or it
returns a `retrievalResults` list. -/
inductive IndexOutcome where
  | error : IndexOutcome
  | ok (retrievalResults : List ContextChunk) : IndexOutcome
  deriving DecidableEq

/-- The synthetic existence-probe query text. -/
def validationQueryText (document_identifier : String) : String :=
  "Validate document with ID " ++ document_identifier

/-- The synthesized default retrieval query text. -/
def defaultQueryText (document_identifier : String) : String :=
  "Information related to document ID " ++ document_identifier

/-- `query_text if query_text else f"Information related to ..."`: the
query actually sent by the main retrieval (an empty caller query is falsy
and falls back to the default). -/
def effectiveQueryText (document_identifier : String)
    (query_text : Option String) : String :=
  match query_text with
  | some q => if q = "" then defaultQueryText document_identifier else q
  | none => defaultQueryText document_identifier

/-- `BedrockKnowledgeBaseRetriever.retrieve_document_chunks`,
parameterised over the index behaviour `index num_results metadata_key
value query_text`.  Missing identifier or metadata key, a raised or
empty existence probe (`numberOfResults = 1`), and a raised or empty main
query all return `none`; otherwise the ranked result list is returned. -/
def retrieve_document_chunks
    (index : ℕ → String → String → String → IndexOutcome)
    (document_identifier metadata_key : String)
    (query_text : Option String) (num_results : ℕ) :
    Option (List ContextChunk) :=
  if document_identifier = "" then none
  else if metadata_key = "" then none
  else
    match index 1 metadata_key document_identifier
        (validationQueryText document_identifier) with
    | .error => none
    | .ok results =>
      if results.isEmpty then none
      else
        match index num_results metadata_key document_identifier
            (effectiveQueryText document_identifier query_text) with
        | .error => none
        | .ok results2 =>
          if results2.isEmpty then none else some results2

/-! ## `FieldLevelExtractorService` (field_level_extractor_complete.py) -/

/-- The citation-token marker (`chunk_ref.startswith("CHUNK_")`). -/
def chunkRefMark : List Char := "CHUNK_".data

/-- Resolution of one citation token against the retrieved chunk array:
a string starting with `CHUNK_` has its second underscore-separated
segment read by `int()`, minus one; an in-range index yields that chunk,
and `ValueError`/`IndexError`/out-of-range/non-string tokens yield
`none` (the `continue` paths). -/
def resolveOne (context_chunks : List ContextChunk) : Json → Option ContextChunk
  | .str chunk_ref =>
    if chunkRefMark.isPrefixOf chunk_ref.data then
      match (splitOnUnderscore chunk_ref.data)[1]? with
      | none => none
      | some seg =>
        match pyInt seg with
        | none => none
        | some n =>
          let chunk_index : ℤ := n - 1
          if 0 ≤ chunk_index ∧ chunk_index < (context_chunks.length : ℤ) then
            context_chunks[chunk_index.toNat]?
          else none
    else none
  | _ => none

/-- Resolution of one field entry of the model-returned `field_citations`
map: a list is resolved token by token (dropped tokens skipped, order
kept); any non-list value yields the empty list (the `isinstance`
guard). -/
def resolveRefs (context_chunks : List ContextChunk) : Json → List ContextChunk
  | .arr chunk_refs => chunk_refs.filterMap (resolveOne context_chunks)
  | _ => []

/-- `FieldLevelExtractorService._parse_field_citation_response`: the same
cleaning as `_parse_and_validate` (no structural gate), a strict JSON
parse (`none` on `JSONDecodeError`), the two-key envelope read with
empty-dict defaults, and citation resolution.  A non-dict envelope or a
non-dict `field_citations` value raises `AttributeError` inside the
`try`, caught by the generic handler (`none`). -/
def parse_field_citation_response (raw_output : List Char)
    (context_chunks : List ContextChunk) :
    Option (Json × List (String × List ContextChunk)) :=
  let cleaned := cleanOutput raw_output
  match json_loads cleaned with
  | none => none
  | some parsed_data =>
    match parsed_data with
    | .obj fields =>
      let extracted_data := (lookupKey fields "extracted_data").getD (.obj [])
      let chunk_references := (lookupKey fields "field_citations").getD (.obj [])
      match chunk_references with
      | .obj crFields =>
        some (extracted_data,
          crFields.map (fun p => (p.1, resolveRefs context_chunks p.2)))
      | _ => none
    | _ => none

/-- The literal two-character sequence backslash-n: the source of
`field_level_extractor_complete.py` writes `\\n` inside its f-strings,
so the prompt separators are literal `\n` text, not newlines. -/
def litBackslashN : List Char := "\\n".data

/-- Python repr rendering of a list of strings, as an f-string embeds a
`type` list (e.g. `['string', 'null']`). -/
def pyReprStrList (ts : List Json) : List Char :=
  "[".data ++
    pyJoin (", ".data)
      (ts.map (fun t => match t with
        | .str s => '\x27' :: s.data ++ ['\x27']
        | _ => [])) ++
  "]".data

/-- Text of the citation prompt before the numbered chunks. -/
def citePartA : List Char :=
  ("Human: Extract specific fields with citations from document chunks.\n\n<document_chunks>\n").data

/-- Text of the citation prompt between the chunks and the field list. -/
def citePartB : List Char :=
  ("\n</document_chunks>\n\nExtract these fields:\n").data

/-- Text of the citation prompt after the field list. -/
def citePartC : List Char :=
  ("\n\nResponse format (JSON only):\n\x7b\n  \"extracted_data\": \x7b\"field_name\": \"value\"\x7d,\n  \"field_citations\": \x7b\"field_name\": [\"CHUNK_1\", \"CHUNK_2\"]\x7d\n\x7d\n\nRules:\n1. Extract values only from the chunks\n2. List chunk numbers that contain evidence for each field\n3. Use null for missing fields\n4. Only cite relevant chunks\n5. Return valid JSON only").data

/-- The description of one field in the citation prompt
(`field_def.get('description', ...)` with its f-string default; the
embedded schemas elide the annotation strings, so the default branch
renders). -/
def fieldDescription (field_name : String) (field_def : Json) : List Char :=
  match field_def with
  | .obj f =>
    match lookupKey f "description" with
    | some (.str d) => d.data
    | _ => "The ".data ++ field_name.data ++ " field".data
  | _ => "The ".data ++ field_name.data ++ " field".data

/-- The rendered type of one field (`field_def.get('type', 'string')`;
an f-string renders a list value by repr). -/
def fieldTypeText (field_def : Json) : List Char :=
  match field_def with
  | .obj f =>
    match lookupKey f "type" with
    | some (.str t) => t.data
    | some (.arr ts) => pyReprStrList ts
    | _ => "string".data
  | _ => "string".data

/-- `FieldLevelExtractorService._create_field_citation_prompt`: numbers
every chunk by its retrieval position (`CHUNK_\x7bi+1\x7d`), skips chunks whose
stripped text is empty, fails (`none`) when none remain, and otherwise
renders the prompt with the field list derived from the schema
properties. -/
def create_field_citation_prompt (context_chunks : List ContextChunk)
    (schema_properties : List (String × Json)) : Option (List Char) :=
  let numbered_chunks := context_chunks.enum.filterMap (fun p =>
    let chunk_text := pyStrip (chunkText p.2)
    if chunk_text.isEmpty then none
    else some ("[CHUNK_".data ++ (Nat.repr (p.1 + 1)).data ++ "]".data ++
      litBackslashN ++ chunk_text))
  if numbered_chunks.isEmpty then none
  else
    let context_text := pyJoin (litBackslashN ++ litBackslashN) numbered_chunks
    let field_descriptions := schema_properties.map (fun p =>
      "- ".data ++ p.1.data ++ " (".data ++ fieldTypeText p.2 ++ "): ".data ++
        fieldDescription p.1 p.2)
    let fields_list := pyJoin litBackslashN field_descriptions
    some (citePartA ++ context_text ++ citePartB ++ fields_list ++ citePartC)

/-- The collaborators of `FieldLevelExtractorService`: the knowledge-base
retriever, the LLM call (`_call_llm_with_prompt` catches every exception
internally, so its outcome is an optional raw text), and the configured
retrieval width. -/
structure FieldCitEnv where
  retrieve : String → String → Option String → ℕ → Option (List ContextChunk)
  llmStep : GenParams → List Char → Option (List Char)
  numResults : ℕ

/-- `FieldLevelExtractorService._extract_with_enhanced_prompt`: override
the generator parameters, build the citation prompt, call the model,
parse; the `finally` block restores the original parameters on every
path. -/
def extract_with_enhanced_prompt (env : FieldCitEnv) (g0 : GenParams)
    (context_chunks : List ContextChunk) (schema_properties : List (String × Json))
    (temperature : Option ℚ) (max_tokens : Option ℕ) :
    Option (Json × List (String × List ContextChunk)) × GenParams :=
  let g1 : GenParams :=
    { temperature :=
        match temperature with
        | some t => some t
        | none => g0.temperature,
      max_tokens_to_sample :=
        match max_tokens with
        | some m => m
        | none => g0.max_tokens_to_sample }
  let result :=
    match create_field_citation_prompt context_chunks schema_properties with
    | none => none
    | some prompt =>
      match env.llmStep g1 prompt with
      | none => none
      | some raw_output => parse_field_citation_response raw_output context_chunks
  (result,
    { temperature := g0.temperature,
      max_tokens_to_sample := g0.max_tokens_to_sample })

/-- The success payload returned by `extract_with_field_citations`. -/
structure FieldCitationResult where
  document_identifier : String
  schema_used : String
  extracted_data : Json
  extraction_status : String
  citations : List ContextChunk
  field_citations : List (String × List ContextChunk)

/-- `FieldLevelExtractorService.extract_with_field_citations`
(field_level_extractor_complete.py): schema lookup, retrieval, the
enhanced extraction, and the success dict; every stage failure returns
`none`.  Returns the result and the final generator parameters. -/
def extract_with_field_citations (env : FieldCitEnv) (g0 : GenParams)
    (document_identifier schema_name : String)
    (retrieval_query : Option String) (temperature : Option ℚ)
    (max_tokens : Option ℕ) : Option FieldCitationResult × GenParams :=
  match get_schema schema_name with
  | none => (none, g0)
  | some target_schema =>
    match env.retrieve document_identifier "loanBookingId" retrieval_query
        env.numResults with
    | none => (none, g0)
    | some context_chunks =>
      if context_chunks.isEmpty then (none, g0)
      else
        let schema_properties :=
          match target_schema with
          | .obj f =>
            match lookupKey f "properties" with
            | some (.obj props) => props
            | _ => []
          | _ => []
        let enhanced := extract_with_enhanced_prompt env g0 context_chunks
          schema_properties temperature max_tokens
        match enhanced.1 with
        | none => (none, enhanced.2)
        | some (extracted_data, field_citations) =>
          (some { document_identifier := document_identifier,
                  schema_used := schema_name,
                  extracted_data := extracted_data,
                  extraction_status := "success",
                  citations := context_chunks,
                  field_citations := field_citations }, enhanced.2)

/-! ## Helper lemmas -/

theorem mem_pyJoin {sep : List Char} {parts : List (List Char)}
    {t : List Char} (ht : t ∈ parts) {c : Char} (hc : c ∈ t) :
    c ∈ pyJoin sep parts := by
  induction parts with
  | nil => cases ht
  | cons p ps ih =>
    cases ht with
    | head =>
      cases ps with
      | nil => simpa [pyJoin] using hc
      | cons q qs =>
        simp only [pyJoin, List.mem_append]
        exact Or.inl (Or.inl hc)
    | tail _ h' =>
      cases ps with
      | nil => cases h'
      | cons q qs =>
        simp only [pyJoin, List.mem_append]
        exact Or.inr (ih h')

theorem dropWhile_head_false {p : Char → Bool} {l : List Char}
    {a : Char} {t : List Char} (hd : l.dropWhile p = a :: t) : p a = false := by
  have hne : l.dropWhile p ≠ [] := by simp [hd]
  have := List.head_dropWhile_not p l hne
  simp only [hd, List.head_cons] at this
  exact this

theorem pyStrip_eq_nil_iff {l : List Char} :
    pyStrip l = [] ↔ ∀ c ∈ l, isPySpace c := by
  unfold pyStrip
  rw [List.rdropWhile_eq_nil_iff]
  constructor
  · intro h
    have hnil : l.dropWhile isPySpace = [] := by
      cases hd : l.dropWhile isPySpace with
      | nil => rfl
      | cons a t =>
        have ha : isPySpace a = false := dropWhile_head_false hd
        have hmem : a ∈ l.dropWhile isPySpace := by simp [hd]
        have := h a hmem
        rw [this] at ha
        cases ha
    exact List.dropWhile_eq_nil_iff.mp hnil
  · intro h x hx
    exact h x (List.Sublist.mem hx (List.dropWhile_sublist isPySpace))

theorem dropWhile_rdropWhile_dropWhile (p : Char → Bool) (l : List Char) :
    ((l.dropWhile p).rdropWhile p).dropWhile p = (l.dropWhile p).rdropWhile p := by
  cases hm : l.dropWhile p with
  | nil => simp
  | cons a t =>
    have ha : p a = false := dropWhile_head_false hm
    cases hk : (a :: t).rdropWhile p with
    | nil => simp
    | cons b u =>
      have hpre : b :: u <+: a :: t := by
        rw [← hk]; exact List.rdropWhile_prefix p (a :: t)
      obtain ⟨r, hr⟩ := hpre
      have hb : b = a := by
        have := congrArg List.head? hr
        simpa using this
      subst hb
      simp [List.dropWhile_cons, ha]

theorem pyStrip_idem (l : List Char) : pyStrip (pyStrip l) = pyStrip l := by
  show pyStrip ((l.dropWhile isPySpace).rdropWhile isPySpace) = _
  unfold pyStrip
  rw [dropWhile_rdropWhile_dropWhile]
  exact List.rdropWhile_idempotent _ _

theorem isPrefixOf_append_self (l r : List Char) :
    l.isPrefixOf (l ++ r) = true := by
  rw [List.isPrefixOf_iff_prefix]
  exact List.prefix_append l r

theorem isSuffixOf_append_self (l r : List Char) :
    r.isSuffixOf (l ++ r) = true := by
  rw [List.isSuffixOf_iff_suffix]
  exact List.suffix_append l r

theorem fenceJson_isPrefixOf_brace (t : List Char) :
    fenceJson.isPrefixOf ('\x7b' :: t) = false := rfl

theorem fenceClose_not_isSuffixOf {s : List Char}
    (h : s.getLast? = some '\x7d') : fenceClose.isSuffixOf s = false := by
  have hrev : s.reverse.head? = some '\x7d' := by
    rw [List.head?_reverse]; exact h
  obtain ⟨u, hu⟩ : ∃ u, s.reverse = '\x7d' :: u := by
    cases hs : s.reverse with
    | nil => rw [hs] at hrev; simp at hrev
    | cons a t =>
      rw [hs] at hrev
      simp at hrev
      exact ⟨t, by rw [hrev]⟩
  show fenceClose.reverse.isPrefixOf s.reverse = false
  rw [hu]
  rfl

theorem dropWhile_fenceJson_append (x : List Char) :
    (fenceJson ++ x).dropWhile isPySpace = fenceJson ++ x := rfl

theorem dropWhile_fenceCloseRev_append (y : List Char) :
    (fenceClose.reverse ++ y).dropWhile isPySpace = fenceClose.reverse ++ y := rfl

theorem pyStrip_fence_wrapped (J : List Char) :
    pyStrip (fenceJson ++ J ++ fenceClose) = fenceJson ++ J ++ fenceClose := by
  unfold pyStrip
  rw [show fenceJson ++ J ++ fenceClose = fenceJson ++ (J ++ fenceClose) by
    simp [List.append_assoc]]
  rw [dropWhile_fenceJson_append]
  rw [List.rdropWhile]
  rw [show (fenceJson ++ (J ++ fenceClose)).reverse =
      fenceClose.reverse ++ (J.reverse ++ fenceJson.reverse) by
    simp [List.reverse_append]]
  rw [dropWhile_fenceCloseRev_append]
  simp [List.reverse_append]

theorem head?_pyStrip_exists {J : List Char} (h : (pyStrip J).head? = some '\x7b') :
    ∃ t, pyStrip J = '\x7b' :: t := by
  cases hs : pyStrip J with
  | nil => rw [hs] at h; simp at h
  | cons a t =>
    rw [hs] at h
    simp at h
    exact ⟨t, by rw [h]⟩

theorem dropOpenFence_plain {J : List Char}
    (h1 : (pyStrip J).head? = some '\x7b') :
    dropOpenFence (pyStrip J) = pyStrip J := by
  obtain ⟨t, ht⟩ := head?_pyStrip_exists h1
  unfold dropOpenFence
  rw [ht, fenceJson_isPrefixOf_brace]
  simp

theorem cleanOutput_plain {J : List Char}
    (h1 : (pyStrip J).head? = some '\x7b')
    (h2 : (pyStrip J).getLast? = some '\x7d') :
    cleanOutput J = pyStrip J := by
  unfold cleanOutput
  rw [dropOpenFence_plain h1]
  unfold dropCloseFence
  rw [fenceClose_not_isSuffixOf h2]
  simp only [Bool.false_eq_true, if_false]
  exact pyStrip_idem J

theorem cleanOutput_fenced (J : List Char) :
    cleanOutput (fenceJson ++ J ++ fenceClose) = pyStrip J := by
  unfold cleanOutput
  rw [pyStrip_fence_wrapped]
  unfold dropOpenFence
  rw [show fenceJson ++ J ++ fenceClose = fenceJson ++ (J ++ fenceClose) by
    simp [List.append_assoc]]
  rw [isPrefixOf_append_self]
  simp only [if_true]
  rw [show (7 : ℕ) = fenceJson.length from rfl, List.drop_left]
  unfold dropCloseFence
  rw [isSuffixOf_append_self]
  simp only [if_true]
  rw [List.rdrop]
  rw [show (J ++ fenceClose).length - 3 = J.length by
    simp [fenceClose]]
  rw [List.take_left]

/-! ## Claim C8 -/

/-- C8: for every raw output string whose cleaned form does not both
start with a left brace and end with a right brace, `_parse_and_validate`
returns `none`, for every JSON parsing function uniformly — so the
rejection is decided before any JSON parse is attempted. -/
theorem C8_structural_gate (loads : List Char → Option Json) (avail : Bool)
    (raw : List Char) (schema : Option Json)
    (h : ¬ ((cleanOutput raw).head? = some '\x7b' ∧
            (cleanOutput raw).getLast? = some '\x7d')) :
    parse_and_validate_gen loads avail raw schema = none := by
  by_cases hr : raw = []
  · simp [parse_and_validate_gen, hr]
  · simp [parse_and_validate_gen, hr, h]

/-- Witness for C8 at a concrete non-JSON response. -/
theorem C8_structural_gate_witness :
    parse_and_validate_gen json_loads true ("hello there".data)
      (some LOAN_BOOKING_SHEET_SCHEMA) = none :=
  C8_structural_gate json_loads true ("hello there".data)
    (some LOAN_BOOKING_SHEET_SCHEMA) (by decide)

/-! ## Claim C7 -/

/-- C7: wrapping a valid JSON object text in a leading ` ```json ` fence
and a trailing ` ``` ` fence leaves the parse result of
`_parse_and_validate` unchanged, for every JSON parsing function,
availability flag and schema. -/
theorem C7_fence_round_trip (J : List Char)
    (loads : List Char → Option Json) (avail : Bool) (schema : Option Json)
    (h1 : (pyStrip J).head? = some '\x7b')
    (h2 : (pyStrip J).getLast? = some '\x7d') :
    parse_and_validate_gen loads avail (fenceJson ++ J ++ fenceClose) schema =
      parse_and_validate_gen loads avail J schema := by
  have hJne : J ≠ [] := by
    intro h
    rw [h] at h1
    exact absurd h1 (by decide)
  have hWne : fenceJson ++ J ++ fenceClose ≠ [] := by simp [fenceJson]
  simp only [parse_and_validate_gen]
  rw [if_neg hWne, if_neg hJne, cleanOutput_fenced, cleanOutput_plain h1 h2]

/-- Witness for C7 at a concrete JSON object text. -/
theorem C7_fence_round_trip_witness :
    parse_and_validate_gen json_loads true
        (fenceJson ++ ("\x7b\"a\": 1\x7d").data ++ fenceClose)
        (some LOAN_BOOKING_SHEET_SCHEMA) =
      parse_and_validate_gen json_loads true ("\x7b\"a\": 1\x7d").data
        (some LOAN_BOOKING_SHEET_SCHEMA) :=
  C7_fence_round_trip ("\x7b\"a\": 1\x7d").data json_loads true
    (some LOAN_BOOKING_SHEET_SCHEMA) (by decide) (by decide)

/-! ## Claim C5 -/

/-- C5: an unknown schema name makes `extract_from_document` fail with
the not-found outcome (`None`) while issuing no retrieval call at all,
whatever the collaborators would have answered. -/
theorem C5_unknown_schema_no_retrieval (env : ExtractEnv) (g0 : GenParams)
    (document_identifier schema_name : String) (retrieval_query : Option String)
    (temperature : Option ℚ) (max_tokens : Option ℕ)
    (h : get_schema schema_name = none) :
    extract_from_document env g0 document_identifier schema_name
      retrieval_query temperature max_tokens = (none, g0, []) := by
  unfold extract_from_document
  rw [h]

/-- A concrete environment for witnesses of the orchestrator theorems. -/
def witnessExtractEnv : ExtractEnv :=
  { retrieve := fun _ _ _ _ => some [⟨some "Loan agreement text"⟩],
    genStep := fun _ _ _ => .produces none,
    jsonschemaAvailable := true,
    numResults := 15 }

/-- Witness for C5 at the spec scenario `extract("doc_abc",
"nonexistent_schema")`. -/
theorem C5_unknown_schema_no_retrieval_witness :
    extract_from_document witnessExtractEnv ⟨none, 4000⟩ "doc_abc"
      "nonexistent_schema" none none none = (none, ⟨none, 4000⟩, []) :=
  C5_unknown_schema_no_retrieval witnessExtractEnv ⟨none, 4000⟩ "doc_abc"
    "nonexistent_schema" none none none rfl

/-! ## Claim C4 -/

/-- C4: after every call to `extract_from_document` (and likewise to
`extract_with_field_citations`), whatever the overrides and whatever the
generation step did — succeeded, produced nothing, or raised — the
generator instance fields `temperature` and `max_tokens_to_sample` equal
their values from before the call. -/
theorem C4_generator_params_restored :
    (∀ (env : ExtractEnv) (g0 : GenParams) (d s : String)
        (q : Option String) (t : Option ℚ) (m : Option ℕ),
      ((extract_from_document env g0 d s q t m).2.1).temperature =
          g0.temperature ∧
        ((extract_from_document env g0 d s q t m).2.1).max_tokens_to_sample =
          g0.max_tokens_to_sample) ∧
    (∀ (env : FieldCitEnv) (g0 : GenParams) (d s : String)
        (q : Option String) (t : Option ℚ) (m : Option ℕ),
      ((extract_with_field_citations env g0 d s q t m).2).temperature =
          g0.temperature ∧
        ((extract_with_field_citations env g0 d s q t m).2).max_tokens_to_sample =
          g0.max_tokens_to_sample) := by
  constructor
  · intro env g0 d s q t m
    unfold extract_from_document
    dsimp only
    repeat' split
    all_goals exact ⟨rfl, rfl⟩
  · intro env g0 d s q t m
    unfold extract_with_field_citations
    dsimp only
    repeat' split
    all_goals exact ⟨rfl, rfl⟩

/-! ## Claim C10 -/

/-- C10: `extract_from_document` returns either `None` or a dictionary
whose `extraction_status` is `"success"` and whose
`document_identifier`/`schema_used` echo the arguments unchanged; no
failure-status result object exists. -/
theorem C10_success_shape (env : ExtractEnv) (g0 : GenParams)
    (d s : String) (q : Option String) (t : Option ℚ) (m : Option ℕ) :
    (extract_from_document env g0 d s q t m).1 = none ∨
      ∃ data, (extract_from_document env g0 d s q t m).1 =
        some { document_identifier := d, schema_used := s,
               extracted_data := data, extraction_status := "success" } := by
  unfold extract_from_document
  dsimp only
  repeat' split
  all_goals first | exact Or.inl rfl | exact Or.inr ⟨_, rfl⟩

/-! ## Claim C9 -/

/-- C9: across every behaviour of the document index,
`retrieve_document_chunks` never lets an index error escape and never
returns an empty chunk list: a raised or empty existence probe and a
raised or empty main query each yield the no-chunks outcome `none`, and
every non-`none` return is a non-empty list. -/
theorem C9_retriever_never_raises
    (index : ℕ → String → String → String → IndexOutcome)
    (d k : String) (q : Option String) (n : ℕ) :
    (retrieve_document_chunks index d k q n = none ∨
      ∃ l, retrieve_document_chunks index d k q n = some l ∧ l ≠ []) ∧
    (index 1 k d (validationQueryText d) = .error →
      retrieve_document_chunks index d k q n = none) ∧
    (index 1 k d (validationQueryText d) = .ok [] →
      retrieve_document_chunks index d k q n = none) ∧
    (index n k d (effectiveQueryText d q) = .error →
      retrieve_document_chunks index d k q n = none) ∧
    (index n k d (effectiveQueryText d q) = .ok [] →
      retrieve_document_chunks index d k q n = none) := by
  unfold retrieve_document_chunks
  by_cases hd : d = ""
  · simp [hd]
  · by_cases hk : k = ""
    · simp [hd, hk]
    · cases hp : index 1 k d (validationQueryText d) with
      | error => simp [hd, hk, hp]
      | ok results =>
        by_cases hres : results.isEmpty
        · simp [hd, hk, hp, hres, List.isEmpty_iff] at *
        · cases hm : index n k d (effectiveQueryText d q) with
          | error => simp [hd, hk, hp, hres, hm]
          | ok results2 =>
            by_cases hr2 : results2.isEmpty
            · simp [hd, hk, hp, hres, hm, hr2, List.isEmpty_iff] at *
            · have hres' : results ≠ [] := by
                simpa [List.isEmpty_iff] using hres
              have hr2' : results2 ≠ [] := by
                simpa [List.isEmpty_iff] using hr2
              simp [hd, hk, hp, hres, hm, hr2, hres', hr2']

/-- A document index that always raises, for the C9 witness. -/
def witnessErrIndex : ℕ → String → String → String → IndexOutcome :=
  fun _ _ _ _ => .error

/-- Witness for C9: a raising index yields the no-chunks outcome. -/
theorem C9_retriever_never_raises_witness :
    retrieve_document_chunks witnessErrIndex "doc_abc" "loanBookingId"
      none 15 = none :=
  (C9_retriever_never_raises witnessErrIndex "doc_abc" "loanBookingId"
    none 15).2.1 rfl

/-! ## Claim C2 -/

/-- When the model answer fails top-level JSON parsing, the enhanced
extraction step yields no result (helper for C2). -/
theorem enhanced_none_of_parse_failure (env : FieldCitEnv) (g0 : GenParams)
    (chunks : List ContextChunk) (props : List (String × Json))
    (t : Option ℚ) (m : Option ℕ) (raw : List Char)
    (hLlm : env.llmStep = fun _ _ => some raw)
    (hParse : json_loads (cleanOutput raw) = none) :
    (extract_with_enhanced_prompt env g0 chunks props t m).1 = none := by
  unfold extract_with_enhanced_prompt
  dsimp only
  cases create_field_citation_prompt chunks props with
  | none => rfl
  | some prompt =>
    dsimp only
    rw [hLlm]
    dsimp only
    unfold parse_field_citation_response
    dsimp only
    rw [hParse]

/-- C2: in the field-citation variant, whenever the raw model output
fails top-level JSON parsing, the whole `extract_with_field_citations`
call fails and returns `none` — no partial-success result is returned. -/
theorem C2_parse_failure_fails_whole_call (env : FieldCitEnv)
    (g0 : GenParams) (d s : String) (q : Option String) (t : Option ℚ)
    (m : Option ℕ) (raw : List Char)
    (hLlm : env.llmStep = fun _ _ => some raw)
    (hParse : json_loads (cleanOutput raw) = none) :
    (extract_with_field_citations env g0 d s q t m).1 = none := by
  unfold extract_with_field_citations
  cases get_schema s with
  | none => rfl
  | some ts =>
    dsimp only
    cases env.retrieve d "loanBookingId" q env.numResults with
    | none => rfl
    | some chunks =>
      dsimp only
      by_cases hc : chunks.isEmpty
      · rw [if_pos hc]
      · rw [if_neg hc]
        rw [enhanced_none_of_parse_failure env g0 chunks _ t m raw hLlm hParse]

/-- A field-citation environment whose model answers with invalid JSON,
for the C2 witness. -/
def witnessFieldEnvBadJson : FieldCitEnv :=
  { retrieve := fun _ _ _ _ => some [⟨some "Loan agreement text"⟩],
    llmStep := fun _ _ => some ("not json".data),
    numResults := 15 }

/-- Witness for C2 at a concrete malformed model answer. -/
theorem C2_parse_failure_fails_whole_call_witness :
    (extract_with_field_citations witnessFieldEnvBadJson ⟨none, 4000⟩
      "doc_abc" "loan_booking_sheet" none none none).1 = none :=
  C2_parse_failure_fails_whole_call witnessFieldEnvBadJson ⟨none, 4000⟩
    "doc_abc" "loan_booking_sheet" none none none ("not json".data) rfl rfl

/-! ## Claim C6 -/

/-- Counterexample to C6 as stated: a chunk whose text is a single
space is a chunk with non-empty text, yet prompt building returns
`none` (the joined context strips to nothing), where the claim demands
success. -/
theorem C6_counterexample :
    chunkText ⟨some " "⟩ ≠ [] ∧
    construct_prompt [⟨some " "⟩] LOAN_BOOKING_SHEET_SCHEMA = none := by
  exact ⟨by decide, rfl⟩

/-- C6 (amended): if some chunk text contains a non-whitespace
character, prompt building succeeds and embeds the whitespace-stripped
concatenation of the non-empty chunk texts in retrieval order,
separated by the visible delimiter; if no chunk has non-empty text
(including the empty array), prompt building returns `none`. -/
theorem C6_amended_prompt_build (chunks : List ContextChunk) (schema : Json) :
    ((∃ c ∈ chunks, ∃ ch ∈ chunkText c, isPySpace ch = false) →
      construct_prompt chunks schema =
        some (promptPartA ++
          pyStrip (pyJoin contextDelim
            ((chunks.map chunkText).filter (fun t => !t.isEmpty))) ++
          promptPartB ++ dumpsJson 10 0 schema ++ promptPartC)) ∧
    ((∀ c ∈ chunks, chunkText c = []) →
      construct_prompt chunks schema = none) := by
  constructor
  · rintro ⟨c, hc, ch, hch, hns⟩
    have hchunks : chunks.isEmpty = false := by
      cases chunks with
      | nil => cases hc
      | cons a l => rfl
    have htmem : chunkText c ∈
        (chunks.map chunkText).filter (fun t => !t.isEmpty) := by
      apply List.mem_filter.mpr
      refine ⟨List.mem_map_of_mem _ hc, ?_⟩
      cases h : chunkText c with
      | nil => rw [h] at hch; cases hch
      | cons a l => rfl
    have hmem : ch ∈ pyJoin contextDelim
        ((chunks.map chunkText).filter (fun t => !t.isEmpty)) :=
      mem_pyJoin htmem hch
    have hctx : pyStrip (pyJoin contextDelim
        ((chunks.map chunkText).filter (fun t => !t.isEmpty))) ≠ [] := by
      intro h0
      have := pyStrip_eq_nil_iff.mp h0 ch hmem
      rw [this] at hns
      cases hns
    have hctxe : (pyStrip (pyJoin contextDelim
        ((chunks.map chunkText).filter (fun t => !t.isEmpty)))).isEmpty
          = false := by
      simpa [List.isEmpty_iff] using hctx
    unfold construct_prompt
    rw [hchunks]
    simp only [Bool.false_eq_true, if_false]
    rw [hctxe]
    simp only [Bool.false_eq_true, if_false]
  · intro hall
    unfold construct_prompt
    cases chunks with
    | nil => rfl
    | cons c cs =>
      have hfilter :
          ((c :: cs).map chunkText).filter (fun t => !t.isEmpty) = [] := by
        rw [List.filter_eq_nil_iff]
        intro t ht
        obtain ⟨c', hc', rfl⟩ := List.mem_map.mp ht
        rw [hall c' hc']
        decide
      rw [hfilter]
      rfl

/-- Witness for the success half of the amended C6 at a concrete
one-chunk array. -/
theorem C6_amended_prompt_build_witness :
    construct_prompt [⟨some "Loan agreement text"⟩] LOAN_BOOKING_SHEET_SCHEMA =
      some (promptPartA ++
        pyStrip (pyJoin contextDelim
          (([(⟨some "Loan agreement text"⟩ : ContextChunk)].map
            chunkText).filter (fun t => !t.isEmpty))) ++
        promptPartB ++ dumpsJson 10 0 LOAN_BOOKING_SHEET_SCHEMA ++
        promptPartC) :=
  (C6_amended_prompt_build [⟨some "Loan agreement text"⟩]
    LOAN_BOOKING_SHEET_SCHEMA).1 (by decide)

/-! ## Claim C3 -/

/-- A citation token literally of the form `CHUNK_<n>` with `<n>` a
decimal numeral (the shape the claim quantifies over). -/
def chunkTokenOfForm (s : String) : Bool :=
  chunkRefMark.isPrefixOf s.data &&
    !(s.data.drop 6).isEmpty && (s.data.drop 6).all Char.isDigit

/-- Counterexample to C3 as stated: `"CHUNK_2_3"` is not of the form
`CHUNK_<n>`, yet with two retrieved chunks the resolver does not drop it
— `int("CHUNK_2_3".split("_")[1])` reads `2`, so the token resolves to
the chunk at index 1. -/
theorem C3_counterexample :
    chunkTokenOfForm "CHUNK_2_3" = false ∧
    resolveRefs [⟨some "alpha text"⟩, ⟨some "beta text"⟩]
      (.arr [.str "CHUNK_2_3"]) = [⟨some "beta text"⟩] :=
  ⟨rfl, rfl⟩

/-- Every chunk resolved from a citation token is an element of the
retrieved chunk array (helper for C3). -/
theorem resolveOne_mem {chunks : List ContextChunk} {j : Json}
    {c : ContextChunk} (h : resolveOne chunks j = some c) : c ∈ chunks := by
  cases j with
  | null => simp [resolveOne] at h
  | bool b => simp [resolveOne] at h
  | num q => simp [resolveOne] at h
  | arr l => simp [resolveOne] at h
  | obj fields => simp [resolveOne] at h
  | str s =>
    unfold resolveOne at h
    dsimp only at h
    by_cases hp : chunkRefMark.isPrefixOf s.data = true
    · rw [if_pos hp] at h
      cases hseg : (splitOnUnderscore s.data)[1]? with
      | none => rw [hseg] at h; cases h
      | some seg =>
        rw [hseg] at h
        dsimp only at h
        cases hint : pyInt seg with
        | none => rw [hint] at h; cases h
        | some n =>
          rw [hint] at h
          dsimp only at h
          by_cases hb : 0 ≤ n - 1 ∧ n - 1 < (chunks.length : ℤ)
          · rw [if_pos hb] at h
            obtain ⟨hlt, hEq⟩ := List.getElem?_eq_some.mp h
            rw [← hEq]
            exact List.getElem_mem hlt
          · rw [if_neg hb] at h; cases h
    · rw [if_neg hp] at h; cases h

/-- C3 (amended): citation tokens are resolved by reading the second
underscore-separated segment with `int()`: an in-range value `n` yields
the chunk at zero-based index `n-1` of the originally retrieved array
(so every resolved chunk is one of the retrieved chunks), and
out-of-range or unreadable tokens are dropped without error; in
particular, with 2 retrieved chunks, `["CHUNK_1", "CHUNK_99"]` resolves
to exactly the chunk at index 0, assorted malformed tokens resolve to
nothing, and `"CHUNK_2_3"` resolves via its second segment to the chunk
at index 1 rather than being dropped. -/
theorem C3_amended_citation_resolution :
    (∀ (chunks : List ContextChunk) (j : Json) (c : ContextChunk),
        c ∈ resolveRefs chunks j → c ∈ chunks) ∧
    resolveRefs [⟨some "alpha text"⟩, ⟨some "beta text"⟩]
        (.arr [.str "CHUNK_1", .str "CHUNK_99"]) = [⟨some "alpha text"⟩] ∧
    resolveRefs [⟨some "alpha text"⟩, ⟨some "beta text"⟩]
        (.arr [.str "CHUNK_abc", .num 3, .str "CHUNK_0", .str "CHUNK_",
          .bool true]) = [] ∧
    resolveRefs [⟨some "alpha text"⟩, ⟨some "beta text"⟩]
        (.arr [.str "CHUNK_2_3"]) = [⟨some "beta text"⟩] := by
  refine ⟨?_, rfl, rfl, rfl⟩
  intro chunks j c hc
  cases j with
  | null => simp [resolveRefs] at hc
  | bool b => simp [resolveRefs] at hc
  | num q => simp [resolveRefs] at hc
  | str s => simp [resolveRefs] at hc
  | obj fields => simp [resolveRefs] at hc
  | arr refs =>
    simp only [resolveRefs] at hc
    obtain ⟨r, hr, hres⟩ := List.mem_filterMap.mp hc
    exact resolveOne_mem hres

/-- Witness for the soundness half of the amended C3: a concretely
resolved chunk is an element of the retrieved array. -/
theorem C3_amended_citation_resolution_witness :
    (⟨some "alpha text"⟩ : ContextChunk) ∈
      [(⟨some "alpha text"⟩ : ContextChunk), ⟨some "beta text"⟩] :=
  C3_amended_citation_resolution.1
    [⟨some "alpha text"⟩, ⟨some "beta text"⟩]
    (.arr [.str "CHUNK_1"]) ⟨some "alpha text"⟩ (by decide)

/-! ## Claim C1 -/

/-- Whether a key is one of the `properties` keys of a schema. -/
def propHasKey (schema : Json) (k : String) : Bool :=
  match schema with
  | .obj f =>
    match lookupKey f "properties" with
    | some (.obj props) => (lookupKey props k).isSome
    | _ => false
  | _ => false

/-- The names listed under the `required` keyword of a schema. -/
def requiredNames (schema : Json) : List String :=
  match schema with
  | .obj f =>
    match lookupKey f "required" with
    | some (.arr names) =>
      names.filterMap (fun j => match j with | .str s => some s | _ => none)
    | _ => []
  | _ => []

/-- Whether a schema declares `"type": "object"` at top level. -/
def schemaDeclaresObject : Json → Bool
  | .obj f =>
    match lookupKey f "type" with
    | some (.str t) => t = "object"
    | _ => false
  | _ => false

/-- A model answer carrying exactly the five required fields of the loan
booking sheet schema (all other schema properties omitted). -/
def missingFieldsRaw : List Char :=
  ("\x7b\"maturity_date\": null, \"total_loan_facility_amount\": null, \"borrower_names\": [], \"lender_type\": null, \"governing_law\": null\x7d").data

/-- The parse of `missingFieldsRaw`. -/
def missingFieldsParsed : Json :=
  .obj [("maturity_date", .null), ("total_loan_facility_amount", .null),
    ("borrower_names", .arr []), ("lender_type", .null),
    ("governing_law", .null)]

/-- Counterexample to C1 as stated: against the registered
`loan_booking_sheet` schema, a model answer carrying only the five
required fields parses and validates successfully (`jsonschema` checks
`required`, not key-set equality), yet its key set omits the schema
property `is_revolving_facility` — so the key set of the returned
`extracted_data` does not equal the key set of the schema properties. -/
theorem C1_counterexample :
    ¬ (∀ (schema_name : String) (S : Json) (raw : List Char) (v : Json),
        get_schema schema_name = some S →
        parse_and_validate raw (some S) = some v →
        ∀ k : String, objHasKey v k = propHasKey S k) := by
  intro hclaim
  have h := hclaim "loan_booking_sheet" LOAN_BOOKING_SHEET_SCHEMA
    missingFieldsRaw missingFieldsParsed rfl rfl "is_revolving_facility"
  rw [show objHasKey missingFieldsParsed "is_revolving_facility" = false
    from rfl] at h
  rw [show propHasKey LOAN_BOOKING_SHEET_SCHEMA "is_revolving_facility" = true
    from rfl] at h
  cases h

/-- A validated instance of an object-typed schema is an object carrying
every `required` name as a key (helper for C1). -/
theorem required_present_of_validate {n : ℕ} {S v : Json}
    (h : validateJson (n + 1) S v = true)
    (htype : schemaDeclaresObject S = true) :
    (∃ fields, v = .obj fields) ∧
      ∀ k ∈ requiredNames S, objHasKey v k = true := by
  cases S with
  | null => cases htype
  | bool b => cases htype
  | num q => cases htype
  | str s => cases htype
  | arr l => cases htype
  | obj sf =>
    unfold validateJson at h
    dsimp only at h
    rw [Bool.and_eq_true, Bool.and_eq_true, Bool.and_eq_true] at h
    obtain ⟨⟨⟨hT, hR⟩, _⟩, _⟩ := h
    unfold schemaDeclaresObject at htype
    dsimp only at htype
    have hobj : ∃ fields, v = .obj fields := by
      unfold typeOk at hT
      cases hl : lookupKey sf "type" with
      | none => rw [hl] at htype; cases htype
      | some tv =>
        rw [hl] at htype hT
        cases tv with
        | str t =>
          have ht : t = "object" := by simpa using htype
          subst ht
          simp only [typeMatches, if_pos rfl] at hT
          cases v with
          | obj vf => exact ⟨vf, rfl⟩
          | null => cases hT
          | bool b => cases hT
          | num q => cases hT
          | str s => cases hT
          | arr l => cases hT
        | null => cases htype
        | bool b => cases htype
        | num q => cases htype
        | arr l => cases htype
        | obj f => cases htype
    refine ⟨hobj, ?_⟩
    obtain ⟨vf, rfl⟩ := hobj
    unfold requiredOk at hR
    unfold requiredNames
    cases hreq : lookupKey sf "required" with
    | none => simp [hreq]
    | some r =>
      rw [hreq] at hR
      cases r with
      | arr names =>
        simp only [hreq]
        intro k hk
        obtain ⟨j, hj, hjk⟩ := List.mem_filterMap.mp hk
        have hall := List.all_eq_true.mp hR j hj
        cases j with
        | str nm =>
          have : nm = k := by simpa using hjk
          subst this
          simpa using hall
        | null => cases hjk
        | bool b => cases hjk
        | num q => cases hjk
        | arr l => cases hjk
        | obj f => cases hjk
      | null => simp [hreq]
      | bool b => simp [hreq]
      | num q => simp [hreq]
      | str s => simp [hreq]
      | obj f => simp [hreq]

/-- C1 (amended): for every registered schema and every raw model output
accepted by `_parse_and_validate` (under any JSON parsing function), the
returned `extracted_data` is a JSON object whose keys include every
`required` field of the schema.  (Key-set equality with the full
`properties` key set does not hold — see the counterexample —
because `jsonschema` validation enforces only `required` presence.) -/
theorem C1_amended_required_keys (loads : List Char → Option Json)
    (schema_name : String) (S : Json) (raw : List Char) (v : Json)
    (hS : get_schema schema_name = some S)
    (hparse : parse_and_validate_gen loads true raw (some S) = some v) :
    (∃ fields, v = .obj fields) ∧
      ∀ k ∈ requiredNames S, objHasKey v k = true := by
  have hdecl : schemaDeclaresObject S = true ∧ jsonTruthy S = true := by
    unfold get_schema at hS
    by_cases h1 : schema_name = "credit_agreement"
    · rw [if_pos h1] at hS
      have : CREDIT_AGREEMENT_SCHEMA = S := by injection hS
      rw [← this]
      exact ⟨rfl, rfl⟩
    · rw [if_neg h1] at hS
      by_cases h2 : schema_name = "loan_booking_sheet"
      · rw [if_pos h2] at hS
        have : LOAN_BOOKING_SHEET_SCHEMA = S := by injection hS
        rw [← this]
        exact ⟨rfl, rfl⟩
      · rw [if_neg h2] at hS
        cases hS
  have hval : validateJson 10 S v = true := by
    unfold parse_and_validate_gen at hparse
    by_cases hr : raw = []
    · rw [if_pos hr] at hparse; cases hparse
    · rw [if_neg hr] at hparse
      dsimp only at hparse
      by_cases hgate : (cleanOutput raw).head? = some '\x7b' ∧
          (cleanOutput raw).getLast? = some '\x7d'
      · rw [if_pos hgate] at hparse
        cases hload : loads (cleanOutput raw) with
        | none => rw [hload] at hparse; cases hparse
        | some data =>
          rw [hload] at hparse
          dsimp only at hparse
          rw [hdecl.2] at hparse
          simp only [Bool.and_self, if_true] at hparse
          by_cases hv : validateJson 10 S data = true
          · rw [if_pos hv] at hparse
            have : data = v := by injection hparse
            rw [← this]
            exact hv
          · rw [if_neg hv] at hparse; cases hparse
      · rw [if_neg hgate] at hparse; cases hparse
  exact required_present_of_validate
    (show validateJson (9 + 1) S v = true from hval) hdecl.1

/-- Witness for the amended C1: the five-field answer indeed carries the
required key `governing_law`. -/
theorem C1_amended_required_keys_witness :
    objHasKey missingFieldsParsed "governing_law" = true :=
  (C1_amended_required_keys json_loads "loan_booking_sheet"
    LOAN_BOOKING_SHEET_SCHEMA missingFieldsRaw missingFieldsParsed rfl
    rfl).2 "governing_law" (by decide)
